import Mathlib

/-!
Verification of the proactive-monitoring and order-context-resolution core of
the permit-regulations assistant, as a shallow embedding in Lean 4.

Conventions used throughout the embedding:
* `datetime` values are modelled at one-second granularity as `Int` (seconds
  since an arbitrary epoch); a Python `timedelta.days` is floor division of
  the difference in seconds by 86400, matching the normalisation of
  `datetime.timedelta`.
* Python `set` objects are modelled as `List` values used up to membership;
  `set.add` is `insertKey`, which inserts only when absent.
* Python `dict` objects are modelled as association lists; assignment
  replaces the value of an existing key in place (`statusInsert`).
* Human-readable date renderings (`strftime`, `isoformat`) that appear only
  inside message strings are abstracted to the canonical decimal rendering
  of the underlying timestamp; no claim inspects those substrings.
-/

-- ─── Alert priority (services/proactive_monitor.py, AlertPriority) ──────────

inductive AlertPriority where
  | CRITICAL
  | HIGH
  | MEDIUM
  | LOW
deriving DecidableEq, Repr

/-- Integer value of the `IntEnum`: lower value = higher priority. -/
def AlertPriority.val : AlertPriority → Nat
  | .CRITICAL => 1
  | .HIGH => 2
  | .MEDIUM => 3
  | .LOW => 4

-- ─── Metadata values (the open key-value bag on an alert) ───────────────────

inductive MetaVal where
  | str (s : String)
  | int (n : Int)
deriving DecidableEq, Repr

-- ─── Alert data model (services/proactive_monitor.py, ProactiveAlert) ───────

structure ProactiveAlert where
  alert_type : String
  priority : AlertPriority
  title : String
  message : String
  order_id : Option Int
  metadata : List (String × MetaVal)
  created_at : Int
  delivered : Bool
deriving DecidableEq, Repr

/-- `ProactiveAlert.__lt__`: compare by priority (lower value first). -/
def ProactiveAlert.lt (a b : ProactiveAlert) : Prop :=
  a.priority.val < b.priority.val

-- ─── Monitor state (fields of ProactiveMonitor.__init__) ────────────────────

structure MonitorState where
  user_role : String
  user_email : String
  poll_interval : Int
  weather_interval : Int
  permit_warning_days : Int
  deadline_warning_hours : Int
  alert_queue : List ProactiveAlert
  delivered_keys : List String
  last_order_statuses : List (Int × String)
  last_order_ids : List Int
  warned_permits : List String
  warned_deadlines : List Int
deriving DecidableEq, Repr

/-- The state produced by `ProactiveMonitor.__init__` with default arguments. -/
def initState (role email : String) : MonitorState where
  user_role := role
  user_email := email
  poll_interval := 120
  weather_interval := 1800
  permit_warning_days := 3
  deadline_warning_hours := 24
  alert_queue := []
  delivered_keys := []
  last_order_statuses := []
  last_order_ids := []
  warned_permits := []
  warned_deadlines := []

-- ─── Set / dict helpers (Python set.add and dict assignment) ────────────────

/-- `set.add`: insert a key only when it is not already a member. -/
def insertKey (k : String) (l : List String) : List String :=
  if k ∈ l then l else k :: l

/-- `set.add` on an `Int` set. -/
def insertInt (k : Int) (l : List Int) : List Int :=
  if k ∈ l then l else k :: l

/-- Dict lookup on an association list. -/
def statusLookup : List (Int × String) → Int → Option String
  | [], _ => none
  | kv :: rest, k => if kv.1 == k then some kv.2 else statusLookup rest k

/-- Dict assignment `d[k] = v`: replace the (unique) existing binding in
place if present, else append at the end — Python dicts preserve insertion
order. -/
def statusInsert (d : List (Int × String)) (k : Int) (v : String) :
    List (Int × String) :=
  match d with
  | [] => [(k, v)]
  | kv :: rest =>
    if kv.1 == k then (k, v) :: rest else kv :: statusInsert rest k v

-- ─── Python repr of Optional[int] inside f-strings ──────────────────────────

def optIntRepr : Option Int → String
  | none => "None"
  | some n => toString n

-- ─── Lower-casing (Python str.lower) ────────────────────────────────────────

/-- `str.lower()`, as a per-character map over the code points (the queries
and status strings involved are ASCII; `String.toLower` itself is not used
because its `mapAux` recursion does not reduce in the kernel). -/
def strToLower (s : String) : String :=
  String.mk (s.toList.map Char.toLower)

-- ─── Dedup key (ProactiveMonitor._alert_key) ────────────────────────────────

/-- `f"{alert.alert_type}_{alert.order_id}_{alert.title}"`. -/
def alert_key (a : ProactiveAlert) : String :=
  a.alert_type ++ "_" ++ optIntRepr a.order_id ++ "_" ++ a.title

-- ─── Queue operations ───────────────────────────────────────────────────────

/-- `ProactiveMonitor._enqueue_alert`: append unless the dedup key was
already delivered. -/
def enqueue_alert (s : MonitorState) (a : ProactiveAlert) : MonitorState :=
  if alert_key a ∈ s.delivered_keys then s
  else { s with alert_queue := s.alert_queue ++ [a] }

/-- `ProactiveMonitor.mark_delivered`, applied to the queue entry at index
`i` (the caller passes an alert object aliased with a queue entry; the index
identifies that object). Sets the flag and records the dedup key. -/
def mark_delivered (s : MonitorState) (i : Nat) : MonitorState :=
  match s.alert_queue[i]? with
  | none => s
  | some a =>
    let a2 := { a with delivered := true }
    { s with
      alert_queue := s.alert_queue.set i a2
      delivered_keys := insertKey (alert_key a2) s.delivered_keys }

/-- `ProactiveMonitor.clear_old_alerts`: drop delivered alerts whose
`created_at` is not after `now - max_age_hours`. -/
def clear_old_alerts (s : MonitorState) (max_age_hours now : Int) :
    MonitorState :=
  let cutoff := now - max_age_hours * 3600
  { s with
    alert_queue := s.alert_queue.filter
      (fun a => !a.delivered || decide (a.created_at > cutoff)) }

/-- `ProactiveMonitor.has_alerts`. -/
def has_alerts (s : MonitorState) : Bool :=
  s.alert_queue.any (fun a => !a.delivered)

-- ─── Stable sort (Python list.sort with ProactiveAlert.__lt__) ──────────────

/-- Insert an alert before the first strictly-lower-priority element;
together with `pendSort` this realises a stable sort under the total
preorder induced by `__lt__`, exactly the contract of `list.sort`. -/
def pendInsert (a : ProactiveAlert) : List ProactiveAlert → List ProactiveAlert
  | [] => [a]
  | b :: l =>
    if a.priority.val ≤ b.priority.val then a :: b :: l
    else b :: pendInsert a l

/-- Stable sort of a pending-alert list by ascending priority. -/
def pendSort : List ProactiveAlert → List ProactiveAlert
  | [] => []
  | a :: l => pendInsert a (pendSort l)

/-- `ProactiveMonitor.get_pending_alerts`: filter the undelivered alerts
into a fresh list and stably sort that list. -/
def get_pending_alerts (s : MonitorState) : List ProactiveAlert :=
  pendSort (s.alert_queue.filter (fun a => !a.delivered))

/-- `get_pending_alerts` as a state-passing method call: the returned pair
is (result list, the monitor's state after the call). The source builds a
fresh filtered list, sorts that fresh list in place, and never assigns to
any attribute of `self`. -/
def get_pending_alerts_run (s : MonitorState) :
    List ProactiveAlert × MonitorState :=
  (get_pending_alerts s, s)

-- ─── Lemmas about the stable sort ───────────────────────────────────────────

theorem pendInsert_perm (a : ProactiveAlert) :
    ∀ l : List ProactiveAlert, List.Perm (pendInsert a l) (a :: l) := by
  intro l
  induction l with
  | nil => simp [pendInsert]
  | cons b t ih =>
    by_cases h : a.priority.val ≤ b.priority.val
    · simp [pendInsert, h]
    · simp only [pendInsert, if_neg h]
      exact .trans (.cons b ih) (.swap a b t)

theorem pendSort_perm : ∀ l : List ProactiveAlert, List.Perm (pendSort l) l := by
  intro l
  induction l with
  | nil => simp [pendSort]
  | cons a t ih =>
    exact .trans (pendInsert_perm a (pendSort t)) (.cons a ih)

theorem mem_pendInsert {x a : ProactiveAlert} {l : List ProactiveAlert} :
    x ∈ pendInsert a l ↔ x = a ∨ x ∈ l := by
  constructor
  · intro hx
    have := (pendInsert_perm a l).mem_iff.mp hx
    simpa using this
  · intro hx
    apply (pendInsert_perm a l).mem_iff.mpr
    simpa using hx

theorem pairwise_pendInsert (a : ProactiveAlert) {l : List ProactiveAlert}
    (h : l.Pairwise (fun x y => x.priority.val ≤ y.priority.val)) :
    (pendInsert a l).Pairwise (fun x y => x.priority.val ≤ y.priority.val) := by
  induction l with
  | nil => simp [pendInsert]
  | cons b t ih =>
    rcases List.pairwise_cons.mp h with ⟨hb, ht⟩
    by_cases hab : a.priority.val ≤ b.priority.val
    · simp only [pendInsert, if_pos hab]
      refine List.pairwise_cons.mpr ⟨?_, h⟩
      intro x hx
      rcases List.mem_cons.mp hx with rfl | hx
      · exact hab
      · exact le_trans hab (hb x hx)
    · simp only [pendInsert, if_neg hab]
      refine List.pairwise_cons.mpr ⟨?_, ih ht⟩
      intro x hx
      rcases mem_pendInsert.mp hx with rfl | hx
      · exact le_of_not_le hab
      · exact hb x hx

theorem pendSort_pairwise (l : List ProactiveAlert) :
    (pendSort l).Pairwise (fun x y => x.priority.val ≤ y.priority.val) := by
  induction l with
  | nil => simp [pendSort]
  | cons a t ih => exact pairwise_pendInsert a ih

theorem filter_pendInsert (p : Nat) (a : ProactiveAlert)
    (l : List ProactiveAlert) :
    (pendInsert a l).filter (fun x => x.priority.val == p) =
      if a.priority.val == p then
        a :: l.filter (fun x => x.priority.val == p)
      else l.filter (fun x => x.priority.val == p) := by
  induction l with
  | nil => by_cases h : a.priority.val == p <;> simp [pendInsert, h]
  | cons b t ih =>
    by_cases hab : a.priority.val ≤ b.priority.val
    · by_cases ha : a.priority.val == p <;> simp [pendInsert, if_pos hab, ha]
    · have hba : b.priority.val < a.priority.val := lt_of_not_le hab
      by_cases ha : a.priority.val == p
      · have hbp : (b.priority.val == p) = false := by
          apply beq_false_of_ne
          intro hb
          exact absurd (eq_of_beq ha ▸ hb ▸ rfl :
            a.priority.val = b.priority.val) (Nat.ne_of_gt hba)
        simp [pendInsert, if_neg hab, ha, hbp, ih]
      · by_cases hb : b.priority.val == p <;>
          simp [pendInsert, if_neg hab, ha, hb, ih]

theorem filter_pendSort (p : Nat) (l : List ProactiveAlert) :
    (pendSort l).filter (fun x => x.priority.val == p) =
      l.filter (fun x => x.priority.val == p) := by
  induction l with
  | nil => simp [pendSort]
  | cons a t ih =>
    rw [pendSort, filter_pendInsert]
    by_cases ha : a.priority.val == p <;> simp [ha, ih]

-- ─── C1 ─────────────────────────────────────────────────────────────────────

/-- C1: for every monitor state, `get_pending_alerts` returns exactly the
undelivered alerts of the queue sorted by priority ascending (lower numeric
priority value first), and the sort is stable: alerts of equal priority
appear in their enqueue order (the order of the queue). -/
theorem getPendingAlerts_sorted_stable (s : MonitorState) :
    (get_pending_alerts s).Pairwise
        (fun x y => x.priority.val ≤ y.priority.val)
    ∧ List.Perm (get_pending_alerts s)
        (s.alert_queue.filter (fun a => !a.delivered))
    ∧ ∀ p : Nat,
        (get_pending_alerts s).filter (fun x => x.priority.val == p) =
          (s.alert_queue.filter (fun a => !a.delivered)).filter
            (fun x => x.priority.val == p) := by
  refine ⟨pendSort_pairwise _, pendSort_perm _, fun p => filter_pendSort p _⟩

-- ─── Date values and parsing (ProactiveMonitor._parse_date) ─────────────────

/-- A value found in a date-bearing field of an order document.
`dt t` is a `datetime` object at time `t`; `pstr t s` is a string `s` that
`strptime` parses, under the source's fixed format list, to time `t`;
`bstr s` is a string no format parses. -/
inductive DateVal where
  | dt (t : Int)
  | pstr (t : Int) (s : String)
  | bstr (s : String)
deriving DecidableEq, Repr

/-- Python truthiness of a date field value (`if not date_val: continue`):
a `datetime` is always truthy, a string is truthy iff non-empty. -/
def DateVal.truthy : DateVal → Bool
  | .dt _ => true
  | .pstr _ s => s ≠ ""
  | .bstr s => s ≠ ""

/-- `ProactiveMonitor._parse_date`: pass a `datetime` through, parse a
string with the fixed format list, return `none` on failure. -/
def parse_date : DateVal → Option Int
  | .dt t => some t
  | .pstr t _ => some t
  | .bstr _ => none

-- ─── Order documents ────────────────────────────────────────────────────────

/-- One per-state leg of an order's `routeData`. -/
structure RouteEntry where
  product_name : Option String
  attached_at : Option DateVal
  permit_status : Option String
deriving DecidableEq, Repr

/-- The `doc["order"]` payload, with the fields the monitor probes. -/
structure OrderData where
  status : Option String
  order_status : Option String
  orderStatus : Option String
  state : Option String
  delivery_date : Option DateVal
  end_date : Option DateVal
  estimated_delivery : Option DateVal
  routeData : List RouteEntry
deriving DecidableEq, Repr

/-- An order document as returned by `db.orders.find_one({"id": oid})`. -/
structure OrderDoc where
  order : OrderData
deriving DecidableEq, Repr

/-- An `OrderData` with every probed field absent. -/
def emptyOrderData : OrderData where
  status := none
  order_status := none
  orderStatus := none
  state := none
  delivery_date := none
  end_date := none
  estimated_delivery := none
  routeData := []

/-- First of a list of optional field values that is a non-empty string —
the `if val and isinstance(val, str)` filter of the status probe. -/
def firstNonEmpty : List (Option String) → Option String
  | [] => none
  | v :: rest =>
    match v with
    | some s => if s = "" then firstNonEmpty rest else some s
    | none => firstNonEmpty rest

/-- `ProactiveMonitor._extract_order_status`: probe `status`,
`order_status`, `orderStatus`, `state` in order; default `"unknown"`. -/
def extract_order_status (doc : OrderDoc) : String :=
  (firstNonEmpty
    [doc.order.status, doc.order.order_status,
     doc.order.orderStatus, doc.order.state]).getD "unknown"

-- ─── The database (db.get_db(): orders, drivers, clients collections) ───────

structure DB where
  orders : List (Int × OrderDoc)
  drivers : List (String × List Int)
  clients : List (String × List Int)
deriving Repr

/-- `db.orders.find_one({"id": oid})`. -/
def db_find_order (db : DB) (oid : Int) : Option OrderDoc :=
  (db.orders.find? (fun kv => kv.1 == oid)).map (·.2)

-- ─── Descending integer sort (Mongo sort("id",-1); Python sorted desc) ──────

def insertDescInt (x : Int) : List Int → List Int
  | [] => [x]
  | y :: l => if x ≥ y then x :: y :: l else y :: insertDescInt x l

def sortDescInt : List Int → List Int
  | [] => []
  | x :: l => insertDescInt x (sortDescInt l)

-- ─── ProactiveMonitor._get_user_order_ids ───────────────────────────────────

/-- Admins get the 20 most recent order IDs system-wide (sorted descending);
drivers and clients get `order_ids` from their user document (default `[]`
when the document or the key is missing); other roles get `[]`. -/
def get_user_order_ids (db : DB) (role email : String) : List Int :=
  if role = "admin" then (sortDescInt (db.orders.map (·.1))).take 20
  else if role = "driver" then
    (((db.drivers.find? (fun kv => kv.1 == email)).map (·.2)).getD [])
  else if role = "client" then
    (((db.clients.find? (fun kv => kv.1 == email)).map (·.2)).getD [])
  else []

-- ─── ProactiveMonitor._take_initial_snapshot ────────────────────────────────

/-- The status-recording loop of the initial snapshot: for each order ID in
turn, if its document is found, store its extracted status. -/
def snapshot_statuses (db : DB) : List Int → List (Int × String) →
    List (Int × String)
  | [], d => d
  | oid :: rest, d =>
    snapshot_statuses db rest
      (match db_find_order db oid with
       | some doc => statusInsert d oid (extract_order_status doc)
       | none => d)

/-- `_take_initial_snapshot`: record the visible order IDs as a set and the
status of every found order document; emit no alert. -/
def take_initial_snapshot (s : MonitorState) (db : DB) : MonitorState :=
  let order_ids := get_user_order_ids db s.user_role s.user_email
  { s with
    last_order_ids := order_ids
    last_order_statuses :=
      snapshot_statuses db order_ids s.last_order_statuses }

-- ─── Lemmas about dict updates and the snapshot loop ────────────────────────

theorem statusLookup_insert (d : List (Int × String)) (k : Int) (v : String)
    (k2 : Int) :
    statusLookup (statusInsert d k v) k2 =
      if k2 = k then some v else statusLookup d k2 := by
  induction d with
  | nil =>
    by_cases h : k2 = k
    · simp [statusInsert, statusLookup, h]
    · have h2 : ¬ k = k2 := fun e => h e.symm
      simp [statusInsert, statusLookup, h, h2]
  | cons kv rest ih =>
    by_cases hk : kv.1 = k
    · by_cases h : k2 = k
      · subst h
        simp [statusInsert, statusLookup, hk]
      · have h2 : ¬ k = k2 := fun e => h e.symm
        have h3 : ¬ kv.1 = k2 := by rw [hk]; exact h2
        simp [statusInsert, statusLookup, hk, h, h2, h3]
    · by_cases h2 : kv.1 = k2
      · have hne : ¬ k2 = k := by rw [← h2]; exact hk
        simp [statusInsert, statusLookup, hk, h2, hne]
      · by_cases h : k2 = k
        · subst h
          simp [statusInsert, statusLookup, hk, h2, ih]
        · simp [statusInsert, statusLookup, hk, h2, h, ih]

theorem snapshot_statuses_lookup (db : DB) :
    ∀ (ids : List Int) (d : List (Int × String)) (k : Int),
    statusLookup (snapshot_statuses db ids d) k =
      if k ∈ ids ∧ (db_find_order db k).isSome
      then Option.map extract_order_status (db_find_order db k)
      else statusLookup d k := by
  intro ids
  induction ids with
  | nil => intro d k; simp [snapshot_statuses]
  | cons oid rest ih =>
    intro d k
    by_cases hk : k = oid
    · subst hk
      cases hfo : db_find_order db k with
      | some doc =>
        simp only [snapshot_statuses, hfo, ih]
        by_cases hmem : k ∈ rest
        · simp [hfo, hmem]
        · simp [hfo, hmem, statusLookup_insert]
      | none =>
        simp only [snapshot_statuses, hfo, ih]
        simp [hfo]
    · cases hfo : db_find_order db oid with
      | some doc =>
        simp only [snapshot_statuses, hfo, ih]
        rw [statusLookup_insert]
        simp [hk, List.mem_cons]
      | none =>
        simp only [snapshot_statuses, hfo, ih]
        simp [hk, List.mem_cons]

-- ─── C3 ─────────────────────────────────────────────────────────────────────

/-- C3: cold start. For any database contents, the first fast-loop
activation after `start()` (the initial snapshot) enqueues zero alerts —
the alert queue is unchanged (and still empty, starting from the freshly
initialised monitor) — and afterwards `last_order_ids` contains exactly the
fetched visible order IDs while `last_order_statuses` maps each fetched
order document to its current extracted status, and nothing else. -/
theorem coldStart_snapshot (db : DB) (role email : String) :
    (take_initial_snapshot (initState role email) db).alert_queue = []
    ∧ (∀ s0 : MonitorState,
        (take_initial_snapshot s0 db).alert_queue = s0.alert_queue)
    ∧ (∀ i : Int,
        i ∈ (take_initial_snapshot (initState role email) db).last_order_ids
          ↔ i ∈ get_user_order_ids db role email)
    ∧ (∀ (oid : Int) (doc : OrderDoc),
        oid ∈ get_user_order_ids db role email →
        db_find_order db oid = some doc →
        statusLookup
          (take_initial_snapshot (initState role email) db).last_order_statuses
          oid = some (extract_order_status doc))
    ∧ (∀ (oid : Int) (v : String),
        statusLookup
          (take_initial_snapshot (initState role email) db).last_order_statuses
          oid = some v →
        oid ∈ get_user_order_ids db role email ∧
        ∃ doc, db_find_order db oid = some doc
          ∧ v = extract_order_status doc) := by
  refine ⟨rfl, fun s0 => rfl, fun i => Iff.rfl, ?_, ?_⟩
  · intro oid doc hmem hf
    show statusLookup (snapshot_statuses db
      (get_user_order_ids db role email) []) oid = _
    rw [snapshot_statuses_lookup, if_pos ⟨hmem, by simp [hf]⟩, hf]
    simp
  · intro oid v hv
    have hlook : statusLookup (snapshot_statuses db
        (get_user_order_ids db role email) []) oid = some v := hv
    rw [snapshot_statuses_lookup] at hlook
    by_cases hc : oid ∈ get_user_order_ids db role email
        ∧ (db_find_order db oid).isSome
    · rw [if_pos hc] at hlook
      cases hs : db_find_order db oid with
      | none => rw [hs] at hlook; simp at hlook
      | some doc =>
        rw [hs] at hlook
        simp only [Option.map] at hlook
        refine ⟨hc.1, doc, rfl, ?_⟩
        exact (Option.some_inj.mp hlook).symm
    · rw [if_neg hc] at hlook
      simp [statusLookup] at hlook

/-- A concrete order document whose status is `"active"`. -/
def doc0 : OrderDoc := { order := { emptyOrderData with status := some "active" } }

/-- A concrete database with a single order, id 5. -/
def db0 : DB := { orders := [(5, doc0)], drivers := [], clients := [] }

/-- Witness for C3 at a concrete database and role. -/
theorem coldStart_snapshot_witness :
    (5 : Int) ∈ get_user_order_ids db0 "admin" "e"
    ∧ db_find_order db0 5 = some doc0
    ∧ (take_initial_snapshot (initState "admin" "e") db0).alert_queue = []
    ∧ statusLookup
        (take_initial_snapshot (initState "admin" "e") db0).last_order_statuses
        5 = some "active" := by
  have h := coldStart_snapshot db0 "admin" "e"
  exact ⟨by decide, by decide, h.1, h.2.2.2.1 5 doc0 (by decide) (by decide)⟩

-- ─── Helper lemmas on set insertion and enqueueing ──────────────────────────

theorem mem_insertKey_self (k : String) (l : List String) :
    k ∈ insertKey k l := by
  unfold insertKey; split
  · assumption
  · exact List.mem_cons_self k l

theorem mem_insertKey_of_mem {k : String} {l : List String} (k2 : String)
    (h : k ∈ l) : k ∈ insertKey k2 l := by
  unfold insertKey; split
  · exact h
  · exact List.mem_cons_of_mem k2 h

theorem enqueue_alert_delivered_keys (s : MonitorState) (a : ProactiveAlert) :
    (enqueue_alert s a).delivered_keys = s.delivered_keys := by
  unfold enqueue_alert; split <;> rfl

theorem enqueue_alert_warned_permits (s : MonitorState) (a : ProactiveAlert) :
    (enqueue_alert s a).warned_permits = s.warned_permits := by
  unfold enqueue_alert; split <;> rfl

theorem enqueue_alert_warned_deadlines (s : MonitorState) (a : ProactiveAlert) :
    (enqueue_alert s a).warned_deadlines = s.warned_deadlines := by
  unfold enqueue_alert; split <;> rfl

theorem enqueue_alert_of_mem {s : MonitorState} {a : ProactiveAlert}
    (h : alert_key a ∈ s.delivered_keys) : enqueue_alert s a = s :=
  if_pos h

theorem enqueue_alert_queue_of_not_mem {s : MonitorState} {a : ProactiveAlert}
    (h : alert_key a ∉ s.delivered_keys) :
    (enqueue_alert s a).alert_queue = s.alert_queue ++ [a] := by
  unfold enqueue_alert; rw [if_neg h]

-- ─── Metadata lookup ────────────────────────────────────────────────────────

def metaLookup (k : String) (m : List (String × MetaVal)) : Option MetaVal :=
  (m.find? (fun kv => kv.1 == k)).map (·.2)

-- ─── Permit-expiration check (ProactiveMonitor._check_permit_expirations) ───

/-- `f"{oid}_{state_name}"`. -/
def permitKey (oid : Int) (state_name : String) : String :=
  toString oid ++ "_" ++ state_name

/-- The `'s' if n != 1 else ''` pluralisation. -/
def dayS (n : Int) : String := if n ≠ 1 then "s" else ""

def permit_expired_alert (oid : Int) (state_name : String)
    (days_expired : Int) (now : Int) : ProactiveAlert where
  alert_type := "permit_expired"
  priority := .CRITICAL
  title := "Permit expired: " ++ state_name
  message := "Alert! The permit for " ++ state_name ++ " on order "
    ++ toString oid ++ " appears to have expired " ++ toString days_expired
    ++ " days ago. Please verify and renew if needed."
  order_id := some oid
  metadata := [("state", .str state_name), ("days_expired", .int days_expired)]
  created_at := now
  delivered := false

def permit_expiring_alert (oid : Int) (state_name : String)
    (days_remaining : Int) (now : Int) : ProactiveAlert where
  alert_type := "permit_expiring"
  priority := .HIGH
  title := "Permit expiring: " ++ state_name
  message := "Reminder: The permit for " ++ state_name ++ " on order "
    ++ toString oid ++ " is expiring in " ++ toString days_remaining
    ++ " day" ++ dayS days_remaining
    ++ ". Please ensure it\x27s renewed on time."
  order_id := some oid
  metadata :=
    [("state", .str state_name), ("days_remaining", .int days_remaining)]
  created_at := now
  delivered := false

def permit_issue_alert (oid : Int) (state_name : String)
    (permit_status : String) (now : Int) : ProactiveAlert where
  alert_type := "permit_issue"
  priority := .CRITICAL
  title := "Permit issue: " ++ state_name
  message := "Alert! The permit for " ++ state_name ++ " on order "
    ++ toString oid ++ " has status: " ++ permit_status
    ++ ". This needs immediate attention."
  order_id := some oid
  metadata := [("state", .str state_name), ("status", .str permit_status)]
  created_at := now
  delivered := false

/-- `self._warned_permits.add(permit_key)`. -/
def warnPermit (s : MonitorState) (k : String) : MonitorState :=
  { s with warned_permits := insertKey k s.warned_permits }

/-- The `attached_at` stage of the permit check for one route entry:
estimate expiry as `attached_at + 7 days`; CRITICAL `permit_expired` when
past expiry, HIGH `permit_expiring` within the warning window; warn the key
alongside either alert. -/
def check_permit_attached (s : MonitorState) (now oid : Int)
    (state_name permit_key : String) (att : Option DateVal) : MonitorState :=
  match att with
  | some av =>
    if av.truthy then
      match parse_date av with
      | some attach_date =>
        let estimated_expiry := attach_date + 7 * 86400
        let days_until_expiry := Int.fdiv (estimated_expiry - now) 86400
        if days_until_expiry < 0 then
          warnPermit
            (enqueue_alert s
              (permit_expired_alert oid state_name
                ((days_until_expiry.natAbs : Nat) : Int) now))
            permit_key
        else if days_until_expiry ≤ s.permit_warning_days then
          warnPermit
            (enqueue_alert s
              (permit_expiring_alert oid state_name days_until_expiry now))
            permit_key
        else s
      | none => s
    else s
  | none => s

/-- The `permit_status` stage: CRITICAL `permit_issue` for a bad status
string when the key is still unwarned. -/
def check_permit_status (s : MonitorState) (oid : Int)
    (state_name permit_key ps : String) (now : Int) : MonitorState :=
  if ps ≠ "" ∧ strToLower ps ∈ ["expired", "rejected", "cancelled"] then
    if permit_key ∉ s.warned_permits then
      warnPermit (enqueue_alert s (permit_issue_alert oid state_name ps now))
        permit_key
    else s
  else s

/-- The body of the permit check for one route entry of order `oid`:
skip if already warned, else run the `attached_at` stage followed by the
`permit_status` stage. -/
def check_permit_entry (s : MonitorState) (now oid : Int) (e : RouteEntry) :
    MonitorState :=
  let state_name := e.product_name.getD "Unknown"
  let permit_key := permitKey oid state_name
  if permit_key ∈ s.warned_permits then s
  else
    check_permit_status
      (check_permit_attached s now oid state_name permit_key e.attached_at)
      oid state_name permit_key (e.permit_status.getD "") now

/-- The permit check over all route entries of one order. -/
def check_permit_order (s : MonitorState) (now oid : Int)
    (routeData : List RouteEntry) : MonitorState :=
  routeData.foldl (fun st e => check_permit_entry st now oid e) s

/-- A route entry whose key is already in `warned_permits` is skipped
entirely. -/
theorem check_permit_entry_warned {s : MonitorState} {now oid : Int}
    {e : RouteEntry}
    (h : permitKey oid (e.product_name.getD "Unknown") ∈ s.warned_permits) :
    check_permit_entry s now oid e = s := by
  simp only [check_permit_entry, if_pos h]

/-- The status stage is a no-op when the key is already warned. -/
theorem check_permit_status_warned {s : MonitorState} {oid : Int}
    {sn pk ps : String} {now : Int} (h : pk ∈ s.warned_permits) :
    check_permit_status s oid sn pk ps now = s := by
  unfold check_permit_status
  by_cases hps : ps ≠ "" ∧ strToLower ps ∈ ["expired", "rejected", "cancelled"]
  · rw [if_pos hps, if_neg (not_not_intro h)]
  · rw [if_neg hps]

/-- Computation of the `attached_at` stage when the attachment is exactly
8 days before `now`: the CRITICAL `permit_expired` alert with one day
overdue is emitted and the key is warned. -/
theorem check_permit_attached_expired_eq (s : MonitorState) (now oid : Int)
    (sn pk : String) :
    check_permit_attached s now oid sn pk
        (some (DateVal.dt (now - 8 * 86400))) =
      warnPermit (enqueue_alert s (permit_expired_alert oid sn 1 now)) pk := by
  have hdays : Int.fdiv ((now - 8 * 86400) + 7 * 86400 - now) 86400 = -1 := by
    have harg : (now - 8 * 86400) + 7 * 86400 - now = -86400 := by ring
    rw [harg]; decide
  have hneg : (-1 : Int) < 0 := by decide
  have habs : (((-1 : Int).natAbs : Nat) : Int) = 1 := by decide
  simp only [check_permit_attached, DateVal.truthy, parse_date, hdays,
    if_pos hneg, habs, ite_true]

/-- Computation of the permit check on a route whose `attached_at` is
exactly 8 days before `now`. -/
theorem check_permit_entry_expired_eq (s : MonitorState) (now oid : Int)
    (e : RouteEntry)
    (h8 : e.attached_at = some (DateVal.dt (now - 8 * 86400)))
    (hw : permitKey oid (e.product_name.getD "Unknown") ∉ s.warned_permits) :
    check_permit_entry s now oid e =
      warnPermit
        (enqueue_alert s
          (permit_expired_alert oid (e.product_name.getD "Unknown") 1 now))
        (permitKey oid (e.product_name.getD "Unknown")) := by
  have hmem : permitKey oid (e.product_name.getD "Unknown") ∈
      (warnPermit
        (enqueue_alert s
          (permit_expired_alert oid (e.product_name.getD "Unknown") 1 now))
        (permitKey oid (e.product_name.getD "Unknown"))).warned_permits :=
    mem_insertKey_self _ _
  simp only [check_permit_entry, if_neg hw, h8,
    check_permit_attached_expired_eq]
  exact check_permit_status_warned hmem

-- ─── C4 ─────────────────────────────────────────────────────────────────────

/-- C4: for a route whose `attached_at` is 8 days before `now` and whose
permit key is not yet warned, one permit-check cycle over that route emits
exactly one CRITICAL `permit_expired` alert with `days_expired = 1` and
records the key in `warned_permits`; a second cycle over the same data
emits no further permit alert for that route. -/
theorem permitExpiry_once (s : MonitorState) (now oid : Int) (e : RouteEntry)
    (h8 : e.attached_at = some (DateVal.dt (now - 8 * 86400)))
    (hw : permitKey oid (e.product_name.getD "Unknown") ∉ s.warned_permits)
    (hk : alert_key
        (permit_expired_alert oid (e.product_name.getD "Unknown") 1 now)
        ∉ s.delivered_keys) :
    (check_permit_order s now oid [e]).alert_queue =
      s.alert_queue
        ++ [permit_expired_alert oid (e.product_name.getD "Unknown") 1 now]
    ∧ (permit_expired_alert oid (e.product_name.getD "Unknown") 1 now).priority
        = .CRITICAL
    ∧ (permit_expired_alert oid (e.product_name.getD "Unknown") 1 now).alert_type
        = "permit_expired"
    ∧ metaLookup "days_expired"
        (permit_expired_alert oid (e.product_name.getD "Unknown") 1 now).metadata
        = some (.int 1)
    ∧ permitKey oid (e.product_name.getD "Unknown")
        ∈ (check_permit_order s now oid [e]).warned_permits
    ∧ check_permit_order (check_permit_order s now oid [e]) now oid [e]
        = check_permit_order s now oid [e] := by
  have h1 : check_permit_order s now oid [e] = check_permit_entry s now oid e := rfl
  have h2 := check_permit_entry_expired_eq s now oid e h8 hw
  have hqueue : (check_permit_entry s now oid e).alert_queue =
      s.alert_queue
        ++ [permit_expired_alert oid (e.product_name.getD "Unknown") 1 now] := by
    rw [h2]
    show (enqueue_alert s _).alert_queue = _
    exact enqueue_alert_queue_of_not_mem hk
  have hwmem : permitKey oid (e.product_name.getD "Unknown")
      ∈ (check_permit_entry s now oid e).warned_permits := by
    rw [h2]
    exact mem_insertKey_self _ _
  refine ⟨h1 ▸ hqueue, rfl, rfl, rfl, h1 ▸ hwmem, ?_⟩
  rw [h1]
  exact check_permit_entry_warned hwmem

/-- A concrete route entry attached exactly 8 days before time 1000000. -/
def route0 : RouteEntry where
  product_name := some "Texas"
  attached_at := some (DateVal.dt (1000000 - 8 * 86400))
  permit_status := none

/-- Witness for C4 at a concrete monitor state and route. -/
theorem permitExpiry_once_witness :
    permitKey 2 "Texas" ∉ (initState "driver" "d").warned_permits
    ∧ (check_permit_order (initState "driver" "d") 1000000 2 [route0]).alert_queue
        = [permit_expired_alert 2 "Texas" 1 1000000]
    ∧ check_permit_order
        (check_permit_order (initState "driver" "d") 1000000 2 [route0])
        1000000 2 [route0]
      = check_permit_order (initState "driver" "d") 1000000 2 [route0] := by
  have h := permitExpiry_once (initState "driver" "d") 1000000 2 route0
    rfl (by decide) (by decide)
  exact ⟨by decide, h.1, h.2.2.2.2.2⟩

-- ─── Delivery-deadline check (ProactiveMonitor._check_delivery_deadlines) ───

/-- `self._warned_deadlines.add(oid)`. -/
def warnDeadline (s : MonitorState) (oid : Int) : MonitorState :=
  { s with warned_deadlines := insertInt oid s.warned_deadlines }

/-- `(deadline - now).total_seconds() / 3600`, as an exact rational
(`Rat.divInt` is used so that concrete instances reduce; see
`hoursRemaining_eq` for the division form). -/
def hoursRemaining (deadline now : Int) : ℚ :=
  Rat.divInt (deadline - now) 3600

theorem hoursRemaining_eq (deadline now : Int) :
    hoursRemaining deadline now = ((deadline - now : Int) : ℚ) / 3600 := by
  unfold hoursRemaining
  rw [Rat.divInt_eq_div]
  norm_num

def deadline_approaching_alert (oid deadline hours_int now : Int) :
    ProactiveAlert where
  alert_type := "deadline_approaching"
  priority := .HIGH
  title := "Deadline: Order " ++ toString oid
  message := "Reminder: Order " ++ toString oid
    ++ " has a delivery deadline in approximately " ++ toString hours_int
    ++ " hours. Scheduled for " ++ toString deadline ++ "."
  order_id := some oid
  metadata :=
    [("deadline", .str (toString deadline)),
     ("hours_remaining", .int hours_int)]
  created_at := now
  delivered := false

def deadline_overdue_alert (oid deadline : Int) (status : String)
    (now : Int) : ProactiveAlert where
  alert_type := "deadline_overdue"
  priority := .CRITICAL
  title := "Overdue: Order " ++ toString oid
  message := "Alert! Order " ++ toString oid
    ++ " appears to be overdue. The deadline was " ++ toString deadline
    ++ ". Current status: " ++ status ++ "."
  order_id := some oid
  metadata :=
    [("deadline", .str (toString deadline)), ("status", .str status)]
  created_at := now
  delivered := false

/-- The candidate date fields, scanned in source order. -/
def deadline_fields (doc : OrderDoc) : List (Option DateVal) :=
  [doc.order.delivery_date, doc.order.end_date, doc.order.estimated_delivery]

/-- The `for date_field in (...)` loop body: skip absent/falsy/unparseable
fields; emit HIGH `deadline_approaching` inside the warning window or
CRITICAL `deadline_overdue` for an overdue non-terminal order, then stop
(`break`); otherwise continue with the next field. -/
def scan_deadline_fields (s : MonitorState) (now oid : Int) (doc : OrderDoc) :
    List (Option DateVal) → MonitorState
  | [] => s
  | f :: rest =>
    match f with
    | none => scan_deadline_fields s now oid doc rest
    | some dv =>
      if !dv.truthy then scan_deadline_fields s now oid doc rest
      else
        match parse_date dv with
        | none => scan_deadline_fields s now oid doc rest
        | some deadline =>
          if 0 < hoursRemaining deadline now
              ∧ hoursRemaining deadline now ≤ (s.deadline_warning_hours : ℚ) then
            warnDeadline
              (enqueue_alert s
                (deadline_approaching_alert oid deadline
                  (Int.fdiv (deadline - now) 3600) now)) oid
          else if hoursRemaining deadline now ≤ 0 then
            if extract_order_status doc ≠ ""
                ∧ strToLower (extract_order_status doc)
                    ∉ ["completed", "delivered", "closed"] then
              warnDeadline
                (enqueue_alert s
                  (deadline_overdue_alert oid deadline
                    (extract_order_status doc) now)) oid
            else scan_deadline_fields s now oid doc rest
          else scan_deadline_fields s now oid doc rest

/-- The deadline check for one order: skip orders already warned, else scan
the candidate date fields. -/
def check_deadline_order (s : MonitorState) (now oid : Int) (doc : OrderDoc) :
    MonitorState :=
  if oid ∈ s.warned_deadlines then s
  else scan_deadline_fields s now oid doc (deadline_fields doc)

-- ─── Analysis of the scan: which field fires, and what it emits ─────────────

/-- Whether one date field value triggers an alert branch of the scan. -/
def deadline_field_fires (wh now : Int) (doc : OrderDoc) :
    Option DateVal → Bool
  | none => false
  | some dv =>
    if !dv.truthy then false
    else
      match parse_date dv with
      | none => false
      | some deadline =>
        if 0 < hoursRemaining deadline now
            ∧ hoursRemaining deadline now ≤ (wh : ℚ) then true
        else if hoursRemaining deadline now ≤ 0 then
          decide (extract_order_status doc ≠ ""
            ∧ strToLower (extract_order_status doc)
                ∉ ["completed", "delivered", "closed"])
        else false

/-- The state produced when the scan stops at a firing field. -/
def deadline_emit_field (s : MonitorState) (now oid : Int) (doc : OrderDoc) :
    Option DateVal → MonitorState
  | none => s
  | some dv =>
    match parse_date dv with
    | none => s
    | some deadline =>
      if 0 < hoursRemaining deadline now
          ∧ hoursRemaining deadline now ≤ (s.deadline_warning_hours : ℚ) then
        warnDeadline
          (enqueue_alert s
            (deadline_approaching_alert oid deadline
              (Int.fdiv (deadline - now) 3600) now)) oid
      else
        warnDeadline
          (enqueue_alert s
            (deadline_overdue_alert oid deadline
              (extract_order_status doc) now)) oid

theorem scan_deadline_find (s : MonitorState) (now oid : Int)
    (doc : OrderDoc) :
    ∀ fs : List (Option DateVal),
    scan_deadline_fields s now oid doc fs =
      match fs.find?
          (deadline_field_fires s.deadline_warning_hours now doc) with
      | some f => deadline_emit_field s now oid doc f
      | none => s := by
  intro fs
  induction fs with
  | nil => simp [scan_deadline_fields, List.find?]
  | cons f rest ih =>
    cases f with
    | none =>
      have hf : deadline_field_fires s.deadline_warning_hours now doc none
          = false := rfl
      rw [List.find?_cons_of_neg _ (by simp [hf])]
      simpa [scan_deadline_fields] using ih
    | some dv =>
      by_cases ht : dv.truthy = true
      · cases hp : parse_date dv with
        | none =>
          have hf : deadline_field_fires s.deadline_warning_hours now doc
              (some dv) = false := by
            simp [deadline_field_fires, ht, hp]
          rw [List.find?_cons_of_neg _ (by simp [hf])]
          simp only [scan_deadline_fields, ht, Bool.not_true,
            Bool.false_eq_true, if_false, hp]
          exact ih
        | some deadline =>
          by_cases hc1 : 0 < hoursRemaining deadline now
              ∧ hoursRemaining deadline now ≤ (s.deadline_warning_hours : ℚ)
          · have hf : deadline_field_fires s.deadline_warning_hours now doc
                (some dv) = true := by
              simp only [deadline_field_fires, ht, Bool.not_true,
                Bool.false_eq_true, if_false, hp, if_pos hc1]
            rw [List.find?_cons_of_pos _ (by simp [hf])]
            simp only [scan_deadline_fields, ht, Bool.not_true,
              Bool.false_eq_true, if_false, hp]
            rw [if_pos hc1]
            simp only [deadline_emit_field, hp]
            rw [if_pos hc1]
          · by_cases hc2 : hoursRemaining deadline now ≤ 0
            · by_cases hc3 : extract_order_status doc ≠ ""
                  ∧ strToLower (extract_order_status doc)
                      ∉ ["completed", "delivered", "closed"]
              · have hf : deadline_field_fires s.deadline_warning_hours now
                    doc (some dv) = true := by
                  simp only [deadline_field_fires, ht, Bool.not_true,
                    Bool.false_eq_true, if_false, hp, if_neg hc1, if_pos hc2]
                  exact decide_eq_true hc3
                rw [List.find?_cons_of_pos _ (by simp [hf])]
                simp only [scan_deadline_fields, ht, Bool.not_true,
                  Bool.false_eq_true, if_false, hp]
                rw [if_neg hc1, if_pos hc2, if_pos hc3]
                simp only [deadline_emit_field, hp]
                rw [if_neg hc1]
              · have hf : deadline_field_fires s.deadline_warning_hours now
                    doc (some dv) = false := by
                  simp only [deadline_field_fires, ht, Bool.not_true,
                    Bool.false_eq_true, if_false, hp, if_neg hc1, if_pos hc2]
                  exact decide_eq_false hc3
                rw [List.find?_cons_of_neg _ (by simp [hf])]
                simp only [scan_deadline_fields, ht, Bool.not_true,
                  Bool.false_eq_true, if_false, hp]
                rw [if_neg hc1, if_pos hc2, if_neg hc3]
                exact ih
            · have hf : deadline_field_fires s.deadline_warning_hours now doc
                  (some dv) = false := by
                simp only [deadline_field_fires, ht, Bool.not_true,
                  Bool.false_eq_true, if_false, hp, if_neg hc1, if_neg hc2]
              rw [List.find?_cons_of_neg _ (by simp [hf])]
              simp only [scan_deadline_fields, ht, Bool.not_true,
                Bool.false_eq_true, if_false, hp]
              rw [if_neg hc1, if_neg hc2]
              exact ih
      · have ht2 : dv.truthy = false := Bool.not_eq_true dv.truthy ▸ ht
        have hf : deadline_field_fires s.deadline_warning_hours now doc
            (some dv) = false := by
          simp [deadline_field_fires, ht2]
        rw [List.find?_cons_of_neg _ (by simp [hf])]
        simp only [scan_deadline_fields, ht2, Bool.not_false, if_true]
        exact ih

-- ─── Spec-words variant of the deadline check, for comparison (C5) ──────────

/-- First date field value that is present (truthy) and parseable, as the
spec's words prescribe ("using the first one present and parseable"). -/
def firstParseableDeadline : List (Option DateVal) → Option Int
  | [] => none
  | f :: rest =>
    match f with
    | none => firstParseableDeadline rest
    | some dv =>
      if !dv.truthy then firstParseableDeadline rest
      else
        match parse_date dv with
        | some d => some d
        | none => firstParseableDeadline rest

/-- The deadline check as the spec's sentence describes it: consult ONLY the
first present-and-parseable date field; if that field yields no alert, stop
without examining later fields. Stated for comparison against
`check_deadline_order`, which is the translation of the source. -/
def check_deadline_order_firstOnly (s : MonitorState) (now oid : Int)
    (doc : OrderDoc) : MonitorState :=
  if oid ∈ s.warned_deadlines then s
  else
    match firstParseableDeadline (deadline_fields doc) with
    | none => s
    | some deadline =>
      if 0 < hoursRemaining deadline now
          ∧ hoursRemaining deadline now ≤ (s.deadline_warning_hours : ℚ) then
        warnDeadline
          (enqueue_alert s
            (deadline_approaching_alert oid deadline
              (Int.fdiv (deadline - now) 3600) now)) oid
      else if hoursRemaining deadline now ≤ 0 then
        if extract_order_status doc ≠ ""
            ∧ strToLower (extract_order_status doc)
                ∉ ["completed", "delivered", "closed"] then
          warnDeadline
            (enqueue_alert s
              (deadline_overdue_alert oid deadline
                (extract_order_status doc) now)) oid
        else s
      else s

/-- An order whose `delivery_date` is 100 hours away (parseable, fires no
alert) and whose `end_date` is 10 hours away (fires `deadline_approaching`). -/
def cdoc : OrderDoc :=
  { order := { emptyOrderData with
      status := some "active"
      delivery_date := some (.dt 360000)
      end_date := some (.dt 36000) } }

-- ─── C5 ─────────────────────────────────────────────────────────────────────

/-- C5 counterexample: at a concrete state, the code's deadline check emits
a `deadline_approaching` alert taken from the SECOND date field
(`end_date`), even though the first date field (`delivery_date`) is present
and parseable and yields no alert — so the scan does NOT stop after the
first present-and-parseable field, refuting the claim; the spec-words
variant, which does stop there, emits nothing. -/
theorem deadlineFirstField_counterexample :
    check_deadline_order (initState "driver" "d") 0 1 cdoc
      ≠ check_deadline_order_firstOnly (initState "driver" "d") 0 1 cdoc
    ∧ (check_deadline_order (initState "driver" "d") 0 1 cdoc).alert_queue
        = [deadline_approaching_alert 1 36000 10 0]
    ∧ (check_deadline_order_firstOnly
        (initState "driver" "d") 0 1 cdoc).alert_queue = [] := by
  have h2 : (check_deadline_order (initState "driver" "d") 0 1 cdoc).alert_queue
      = [deadline_approaching_alert 1 36000 10 0] := by rfl
  have h3 : (check_deadline_order_firstOnly
      (initState "driver" "d") 0 1 cdoc).alert_queue = [] := by rfl
  refine ⟨?_, h2, h3⟩
  intro h
  rw [h, h3] at h2
  exact List.cons_ne_nil _ _ h2.symm

/-- C5 amended: the deadline scan consults the candidate date fields
(`delivery_date`, `end_date`, `estimated_delivery`) in order and stops at
the FIRST field that yields a `deadline_approaching` or `deadline_overdue`
alert; a field that is absent, unparseable, or present-and-parseable but
alert-free does not stop the scan — later fields are still examined that
cycle. -/
theorem deadlineScan_stopsAtFirstFiringField (s : MonitorState)
    (now oid : Int) (doc : OrderDoc) (hw : oid ∉ s.warned_deadlines) :
    check_deadline_order s now oid doc =
      match (deadline_fields doc).find?
          (deadline_field_fires s.deadline_warning_hours now doc) with
      | some f => deadline_emit_field s now oid doc f
      | none => s := by
  simp only [check_deadline_order, if_neg hw]
  exact scan_deadline_find s now oid doc (deadline_fields doc)

/-- Witness for the amended C5 at the counterexample input: the firing
field found is `end_date`, and the emitted state matches. -/
theorem deadlineScan_stopsAtFirstFiringField_witness :
    (1 : Int) ∉ (initState "driver" "d").warned_deadlines
    ∧ check_deadline_order (initState "driver" "d") 0 1 cdoc =
        match (deadline_fields cdoc).find?
            (deadline_field_fires
              (initState "driver" "d").deadline_warning_hours 0 cdoc) with
        | some f => deadline_emit_field (initState "driver" "d") 0 1 cdoc f
        | none => initState "driver" "d" :=
  ⟨by decide,
   deadlineScan_stopsAtFirstFiringField (initState "driver" "d") 0 1 cdoc
     (by decide)⟩

-- ─── C6 ─────────────────────────────────────────────────────────────────────

theorem check_deadline_24_eq (s : MonitorState) (now oid : Int)
    (hw : oid ∉ s.warned_deadlines) (hdw : s.deadline_warning_hours = 24) :
    check_deadline_order s now oid
      { order := { emptyOrderData with
          delivery_date := some (.dt (now + 86400)) } } =
      warnDeadline
        (enqueue_alert s
          (deadline_approaching_alert oid (now + 86400) 24 now)) oid := by
  have e1 : now + 86400 - now = (86400 : Int) := by ring
  have hcond : 0 < hoursRemaining (now + 86400) now
      ∧ hoursRemaining (now + 86400) now ≤ ((24 : Int) : ℚ) := by
    rw [hoursRemaining_eq, e1]
    constructor <;> norm_num
  have hint : Int.fdiv (now + 86400 - now) 3600 = 24 := by rw [e1]; decide
  simp only [check_deadline_order, if_neg hw, deadline_fields,
    scan_deadline_fields, DateVal.truthy, Bool.not_true, Bool.false_eq_true,
    if_false, parse_date, hdw, hint]
  rw [if_pos hcond]

theorem check_deadline_2401_eq (s : MonitorState) (now oid : Int)
    (hw : oid ∉ s.warned_deadlines) (hdw : s.deadline_warning_hours = 24) :
    check_deadline_order s now oid
      { order := { emptyOrderData with
          delivery_date := some (.dt (now + 86436)) } } = s := by
  have e2 : now + 86436 - now = (86436 : Int) := by ring
  have hc1 : ¬(0 < hoursRemaining (now + 86436) now
      ∧ hoursRemaining (now + 86436) now ≤ ((24 : Int) : ℚ)) := by
    rw [hoursRemaining_eq, e2]
    intro h
    have h2 := h.2
    norm_num at h2
  have hc2 : ¬(hoursRemaining (now + 86436) now ≤ 0) := by
    rw [hoursRemaining_eq, e2]
    norm_num
  simp only [check_deadline_order, if_neg hw, deadline_fields,
    scan_deadline_fields, DateVal.truthy, Bool.not_true, Bool.false_eq_true,
    if_false, parse_date, hdw]
  rw [if_neg hc1, if_neg hc2]
  rfl

/-- C6: the deadline boundary is inclusive. With `deadline_warning_hours =
24` and an order not yet warned, a deadline field exactly 24.0 hours ahead
triggers a HIGH `deadline_approaching` alert, while a field 24.01 hours
ahead (86436 seconds) triggers no alert that cycle and leaves the state
unchanged. -/
theorem deadlineBoundary_inclusive (s : MonitorState) (now oid : Int)
    (hw : oid ∉ s.warned_deadlines) (hdw : s.deadline_warning_hours = 24)
    (hk : alert_key (deadline_approaching_alert oid (now + 86400) 24 now)
        ∉ s.delivered_keys) :
    (check_deadline_order s now oid
      { order := { emptyOrderData with
          delivery_date := some (.dt (now + 86400)) } }).alert_queue
      = s.alert_queue ++ [deadline_approaching_alert oid (now + 86400) 24 now]
    ∧ (deadline_approaching_alert oid (now + 86400) 24 now).priority = .HIGH
    ∧ (deadline_approaching_alert oid (now + 86400) 24 now).alert_type
        = "deadline_approaching"
    ∧ check_deadline_order s now oid
        { order := { emptyOrderData with
            delivery_date := some (.dt (now + 86436)) } } = s := by
  refine ⟨?_, rfl, rfl, check_deadline_2401_eq s now oid hw hdw⟩
  rw [check_deadline_24_eq s now oid hw hdw]
  show (enqueue_alert s _).alert_queue = _
  exact enqueue_alert_queue_of_not_mem hk

/-- Witness for C6 at a concrete state and time. -/
theorem deadlineBoundary_inclusive_witness :
    (7 : Int) ∉ (initState "driver" "d").warned_deadlines
    ∧ (initState "driver" "d").deadline_warning_hours = 24
    ∧ (check_deadline_order (initState "driver" "d") 0 7
        { order := { emptyOrderData with
            delivery_date := some (.dt 86400) } }).alert_queue
        = [deadline_approaching_alert 7 86400 24 0]
    ∧ check_deadline_order (initState "driver" "d") 0 7
        { order := { emptyOrderData with
            delivery_date := some (.dt 86436) } } = initState "driver" "d" := by
  have h := deadlineBoundary_inclusive (initState "driver" "d") 0 7
    (by decide) rfl (by decide)
  exact ⟨by decide, rfl, h.1, h.2.2.2⟩

-- ─── Substring containment (Python `needle in hay`) ─────────────────────────

def isPrefixL : List Char → List Char → Bool
  | [], _ => true
  | _ :: _, [] => false
  | a :: as, b :: bs => a == b && isPrefixL as bs

def isInfixL (needle : List Char) : List Char → Bool
  | [] => needle.isEmpty
  | c :: t => isPrefixL needle (c :: t) || isInfixL needle t

/-- `needle in hay` on Python strings. -/
def containsSub (hay needle : String) : Bool :=
  isInfixL needle.toList hay.toList

-- ─── Severe-weather detection (ProactiveMonitor._is_severe_weather) ─────────

def severe_keywords : List String :=
  ["storm", "thunderstorm", "tornado", "hurricane",
   "blizzard", "heavy rain", "heavy snow", "ice",
   "freezing rain", "hail", "flood", "warning",
   "extreme", "severe", "dangerous", "advisory",
   "high wind", "gale", "fog"]

def is_severe_weather (weather_info : String) : Bool :=
  severe_keywords.any (fun k => containsSub (strToLower weather_info) k)

-- ─── Route-weather check (ProactiveMonitor._check_route_weather) ────────────

/-- `f"weather_{oid}_{city}"`. -/
def weather_key (oid : Int) (city : String) : String :=
  "weather_" ++ toString oid ++ "_" ++ city

def weather_alert_mk (oid : Int) (city weather_info : String) (now : Int) :
    ProactiveAlert where
  alert_type := "weather_alert"
  priority := .CRITICAL
  title := "Severe weather: " ++ city
  message := "Weather alert for your route! Severe conditions detected near "
    ++ city ++ " on order " ++ toString oid ++ ". " ++ weather_info
    ++ " Please exercise caution."
  order_id := some oid
  metadata := [("city", .str city), ("weather", .str weather_info)]
  created_at := now
  delivered := false

/-- The per-city body of the weather check for order `oid`: skip cities
whose weather key is already delivered; on severe weather, enqueue the
CRITICAL alert and record the weather key in the SAME step (weather-fetch
failures, `weather_info = none`, are swallowed). -/
def check_weather_city (s : MonitorState) (now oid : Int) (city : String)
    (weather_info : Option String) : MonitorState :=
  if weather_key oid city ∈ s.delivered_keys then s
  else
    match weather_info with
    | none => s
    | some w =>
      if w ≠ "" ∧ is_severe_weather w then
        let s1 := enqueue_alert s (weather_alert_mk oid city w now)
        { s1 with
          delivered_keys := insertKey (weather_key oid city) s1.delivered_keys }
      else s

/-- Number of weather alerts for the pair `(oid, city)` in a queue. -/
def count_weather_alerts (oid : Int) (city : String)
    (q : List ProactiveAlert) : Nat :=
  q.countP (fun a => a.alert_type == "weather_alert"
    && a.order_id == some oid && a.title == "Severe weather: " ++ city)

/-- A sequence of slow-loop weather checks for one `(oid, city)` pair, with
arbitrary observation times and weather descriptions. -/
def run_weather_checks (s : MonitorState) (oid : Int) (city : String)
    (steps : List (Int × Option String)) : MonitorState :=
  steps.foldl (fun st pr => check_weather_city st pr.1 oid city pr.2) s

theorem check_weather_city_inv (s : MonitorState) (now oid : Int)
    (city : String) (w : Option String)
    (h1 : count_weather_alerts oid city s.alert_queue ≤ 1)
    (h2 : weather_key oid city ∉ s.delivered_keys →
      count_weather_alerts oid city s.alert_queue = 0) :
    count_weather_alerts oid city
        (check_weather_city s now oid city w).alert_queue ≤ 1
    ∧ (weather_key oid city
          ∉ (check_weather_city s now oid city w).delivered_keys →
        count_weather_alerts oid city
          (check_weather_city s now oid city w).alert_queue = 0) := by
  by_cases hk : weather_key oid city ∈ s.delivered_keys
  · simp only [check_weather_city, if_pos hk]
    exact ⟨h1, h2⟩
  · cases w with
    | none =>
      simp only [check_weather_city, if_neg hk]
      exact ⟨h1, h2⟩
    | some wi =>
      by_cases hc : wi ≠ "" ∧ is_severe_weather wi
      · simp only [check_weather_city, if_neg hk, if_pos hc]
        have hcount0 := h2 hk
        constructor
        · show count_weather_alerts oid city
            (enqueue_alert s (weather_alert_mk oid city wi now)).alert_queue ≤ 1
          by_cases he : alert_key (weather_alert_mk oid city wi now)
              ∈ s.delivered_keys
          · rw [enqueue_alert_of_mem he, hcount0]
            decide
          · rw [enqueue_alert_queue_of_not_mem he]
            unfold count_weather_alerts at hcount0 ⊢
            rw [List.countP_append, hcount0]
            have := List.countP_le_length
              (fun a => a.alert_type == "weather_alert"
                && a.order_id == some oid
                && a.title == "Severe weather: " ++ city)
              (l := [weather_alert_mk oid city wi now])
            simpa using this
        · intro hnot
          exact absurd (mem_insertKey_self _ _) hnot
      · simp only [check_weather_city, if_neg hk, if_neg hc]
        exact ⟨h1, h2⟩

theorem run_weather_checks_inv (oid : Int) (city : String) :
    ∀ (steps : List (Int × Option String)) (s : MonitorState),
    count_weather_alerts oid city s.alert_queue ≤ 1 →
    (weather_key oid city ∉ s.delivered_keys →
      count_weather_alerts oid city s.alert_queue = 0) →
    count_weather_alerts oid city
      (run_weather_checks s oid city steps).alert_queue ≤ 1 := by
  intro steps
  induction steps with
  | nil => intro s h1 _; exact h1
  | cons pr rest ih =>
    intro s h1 h2
    have hstep := check_weather_city_inv s pr.1 oid city pr.2 h1 h2
    exact ih (check_weather_city s pr.1 oid city pr.2) hstep.1 hstep.2

-- ─── C9 ─────────────────────────────────────────────────────────────────────

/-- C9: weather alerts are deduplicated at enqueue time, not at delivery.
(i) A city whose weather key is already in the delivered-keys set is
skipped by the slow loop. (ii) Whenever the per-city step changes the
queue, the weather key is recorded in the delivered-keys set in that very
step. (iii) Hence over any sequence of slow-loop checks for one
`(orderId, city)` pair, at most one weather alert for that pair is ever
enqueued, even if no alert is ever marked delivered. (iv) By contrast, the
plain enqueue step used by all other alert kinds records no dedup key. -/
theorem weatherDedup_atEnqueue (s : MonitorState) (now oid : Int)
    (city : String) (w : Option String) (a : ProactiveAlert)
    (steps : List (Int × Option String))
    (hk : weather_key oid city ∉ s.delivered_keys)
    (h0 : count_weather_alerts oid city s.alert_queue = 0) :
    (∀ s2 : MonitorState, ∀ now2 : Int, ∀ w2 : Option String,
      weather_key oid city ∈ s2.delivered_keys →
      check_weather_city s2 now2 oid city w2 = s2)
    ∧ ((check_weather_city s now oid city w).alert_queue ≠ s.alert_queue →
        weather_key oid city
          ∈ (check_weather_city s now oid city w).delivered_keys)
    ∧ count_weather_alerts oid city
        (run_weather_checks s oid city steps).alert_queue ≤ 1
    ∧ (enqueue_alert s a).delivered_keys = s.delivered_keys := by
  refine ⟨?_, ?_, ?_, enqueue_alert_delivered_keys s a⟩
  · intro s2 now2 w2 hmem
    simp only [check_weather_city, if_pos hmem]
  · intro hchanged
    by_cases hc : ∃ wi, w = some wi ∧ (wi ≠ "" ∧ is_severe_weather wi)
    · obtain ⟨wi, rfl, hcond⟩ := hc
      simp only [check_weather_city, if_neg hk, if_pos hcond]
      exact mem_insertKey_self _ _
    · exfalso
      apply hchanged
      cases w with
      | none => simp [check_weather_city, if_neg hk]
      | some wi =>
        have hcond : ¬(wi ≠ "" ∧ is_severe_weather wi) := by
          intro hx
          exact hc ⟨wi, rfl, hx⟩
        simp [check_weather_city, if_neg hk, hcond]
  · exact run_weather_checks_inv oid city steps s
      (h0 ▸ Nat.zero_le 1) (fun _ => h0)

/-- Witness for C9 at a concrete state, pair and run. -/
theorem weatherDedup_atEnqueue_witness :
    weather_key 3 "Dallas" ∉ (initState "driver" "d").delivered_keys
    ∧ count_weather_alerts 3 "Dallas"
        (initState "driver" "d").alert_queue = 0
    ∧ count_weather_alerts 3 "Dallas"
        (run_weather_checks (initState "driver" "d") 3 "Dallas"
          [(0, some "Severe thunderstorm approaching"),
           (1800, some "Severe thunderstorm approaching")]).alert_queue ≤ 1
    ∧ (enqueue_alert (initState "driver" "d")
        (weather_alert_mk 3 "Dallas" "storm" 0)).delivered_keys
        = (initState "driver" "d").delivered_keys := by
  have h := weatherDedup_atEnqueue (initState "driver" "d") 0 3 "Dallas"
    (some "Severe thunderstorm approaching")
    (weather_alert_mk 3 "Dallas" "storm" 0)
    [(0, some "Severe thunderstorm approaching"),
     (1800, some "Severe thunderstorm approaching")]
    (by decide) (by decide)
  exact ⟨by decide, by decide, h.2.2.1, h.2.2.2⟩

-- ─── Frame lemmas: no check removes delivered keys ──────────────────────────

theorem warnPermit_delivered_keys (s : MonitorState) (k : String) :
    (warnPermit s k).delivered_keys = s.delivered_keys := rfl

theorem warnDeadline_delivered_keys (s : MonitorState) (oid : Int) :
    (warnDeadline s oid).delivered_keys = s.delivered_keys := rfl

theorem check_permit_attached_delivered_keys (s : MonitorState)
    (now oid : Int) (sn pk : String) (att : Option DateVal) :
    (check_permit_attached s now oid sn pk att).delivered_keys
      = s.delivered_keys := by
  cases att with
  | none => rfl
  | some av =>
    by_cases ht : av.truthy = true
    · cases hp : parse_date av with
      | none => simp [check_permit_attached, ht, hp]
      | some att_d =>
        simp only [check_permit_attached, ht, hp, ite_true]
        split
        · simp [warnPermit, enqueue_alert_delivered_keys]
        · split
          · simp [warnPermit, enqueue_alert_delivered_keys]
          · rfl
    · have ht2 : av.truthy = false := by
        revert ht; cases av.truthy <;> simp
      simp [check_permit_attached, ht2]

theorem check_permit_status_delivered_keys (s : MonitorState) (oid : Int)
    (sn pk ps : String) (now : Int) :
    (check_permit_status s oid sn pk ps now).delivered_keys
      = s.delivered_keys := by
  unfold check_permit_status
  split
  · split
    · simp [warnPermit, enqueue_alert_delivered_keys]
    · rfl
  · rfl

theorem check_permit_entry_delivered_keys (s : MonitorState) (now oid : Int)
    (e : RouteEntry) :
    (check_permit_entry s now oid e).delivered_keys = s.delivered_keys := by
  simp only [check_permit_entry]
  split
  · rfl
  · rw [check_permit_status_delivered_keys,
      check_permit_attached_delivered_keys]

theorem scan_deadline_delivered_keys (s : MonitorState) (now oid : Int)
    (doc : OrderDoc) :
    ∀ fs : List (Option DateVal),
    (scan_deadline_fields s now oid doc fs).delivered_keys
      = s.delivered_keys := by
  intro fs
  induction fs with
  | nil => rfl
  | cons f rest ih =>
    cases f with
    | none => simpa [scan_deadline_fields] using ih
    | some dv =>
      simp only [scan_deadline_fields]
      split
      · exact ih
      · split
        · exact ih
        · split
          · simp [warnDeadline, enqueue_alert_delivered_keys]
          · split
            · split
              · simp [warnDeadline, enqueue_alert_delivered_keys]
              · exact ih
            · exact ih

theorem check_deadline_order_delivered_keys (s : MonitorState)
    (now oid : Int) (doc : OrderDoc) :
    (check_deadline_order s now oid doc).delivered_keys
      = s.delivered_keys := by
  unfold check_deadline_order
  split
  · rfl
  · exact scan_deadline_delivered_keys s now oid doc _

theorem take_initial_snapshot_delivered_keys (s : MonitorState) (db : DB) :
    (take_initial_snapshot s db).delivered_keys = s.delivered_keys := rfl

theorem clear_old_alerts_delivered_keys (s : MonitorState)
    (max_age_hours now : Int) :
    (clear_old_alerts s max_age_hours now).delivered_keys
      = s.delivered_keys := rfl

-- ─── Monitor operations and key monotonicity ────────────────────────────────

/-- One state-mutating operation of the monitor: a delivery, a plain
enqueue, garbage collection, the initial snapshot, or one body of the
permit / deadline / weather checks. -/
inductive MonOp where
  | mark (i : Nat)
  | enq (a : ProactiveAlert)
  | gc (max_age_hours now : Int)
  | snapshot (db : DB)
  | permit (now oid : Int) (e : RouteEntry)
  | deadline (now oid : Int) (doc : OrderDoc)
  | weather (now oid : Int) (city : String) (w : Option String)

def applyOp (s : MonitorState) : MonOp → MonitorState
  | .mark i => mark_delivered s i
  | .enq a => enqueue_alert s a
  | .gc max_age_hours now => clear_old_alerts s max_age_hours now
  | .snapshot db => take_initial_snapshot s db
  | .permit now oid e => check_permit_entry s now oid e
  | .deadline now oid doc => check_deadline_order s now oid doc
  | .weather now oid city w => check_weather_city s now oid city w

def applyOps (s : MonitorState) (ops : List MonOp) : MonitorState :=
  ops.foldl applyOp s

/-- No monitor operation ever removes a delivered key. -/
theorem applyOp_delivered_mono {k : String} {s : MonitorState} (op : MonOp)
    (h : k ∈ s.delivered_keys) : k ∈ (applyOp s op).delivered_keys := by
  cases op with
  | mark i =>
    show k ∈ (mark_delivered s i).delivered_keys
    unfold mark_delivered
    split
    · exact h
    · exact mem_insertKey_of_mem _ h
  | enq a =>
    show k ∈ (enqueue_alert s a).delivered_keys
    rw [enqueue_alert_delivered_keys]
    exact h
  | gc mh n => exact h
  | snapshot db => exact h
  | permit now oid e =>
    show k ∈ (check_permit_entry s now oid e).delivered_keys
    rw [check_permit_entry_delivered_keys]
    exact h
  | deadline now oid doc =>
    show k ∈ (check_deadline_order s now oid doc).delivered_keys
    rw [check_deadline_order_delivered_keys]
    exact h
  | weather now oid city w =>
    show k ∈ (check_weather_city s now oid city w).delivered_keys
    unfold check_weather_city
    split
    · exact h
    · split
      · exact h
      · split
        · exact mem_insertKey_of_mem _
            (by rw [enqueue_alert_delivered_keys]; exact h)
        · exact h

theorem applyOps_delivered_mono {k : String} :
    ∀ (ops : List MonOp) (s : MonitorState),
    k ∈ s.delivered_keys → k ∈ (applyOps s ops).delivered_keys := by
  intro ops
  induction ops with
  | nil => intro s h; exact h
  | cons op rest ih =>
    intro s h
    exact ih (applyOp s op) (applyOp_delivered_mono op h)

theorem insertKey_idem (k : String) (l : List String) :
    insertKey k (insertKey k l) = insertKey k l := by
  unfold insertKey
  by_cases h : k ∈ l
  · simp [h]
  · simp [h, List.mem_cons]

-- ─── C2 ─────────────────────────────────────────────────────────────────────

/-- C2: `mark_delivered` is idempotent — marking the same queue entry twice
leaves the monitor in the same state as marking it once; and once an
alert's dedup key is in the delivered-keys set, the enqueue step never adds
an alert with that key again, even after any sequence of monitor operations
(including the garbage collection that may purge the original alert). -/
theorem markDelivered_idem_dedupPersists (s : MonitorState) (i : Nat)
    (a : ProactiveAlert) (ops : List MonOp)
    (hk : alert_key a ∈ s.delivered_keys) :
    mark_delivered (mark_delivered s i) i = mark_delivered s i
    ∧ enqueue_alert (applyOps s ops) a = applyOps s ops := by
  constructor
  · cases hq : s.alert_queue[i]? with
    | none =>
      have h1 : mark_delivered s i = s := by
        unfold mark_delivered
        rw [hq]
      rw [h1, h1]
    | some a0 =>
      have hi : i < s.alert_queue.length := (List.getElem?_eq_some.mp hq).1
      have h1 : mark_delivered s i =
          { s with
            alert_queue := s.alert_queue.set i { a0 with delivered := true }
            delivered_keys :=
              insertKey (alert_key { a0 with delivered := true })
                s.delivered_keys } := by
        unfold mark_delivered
        rw [hq]
      have hq2 : (mark_delivered s i).alert_queue[i]?
          = some { a0 with delivered := true } := by
        rw [h1]
        exact List.getElem?_set_eq_of_lt _ (by simpa using hi)
      have hmk : ∀ (t : MonitorState) (b0 : ProactiveAlert),
          t.alert_queue[i]? = some b0 →
          mark_delivered t i =
            { t with
              alert_queue := t.alert_queue.set i { b0 with delivered := true }
              delivered_keys :=
                insertKey (alert_key { b0 with delivered := true })
                  t.delivered_keys } := by
        intro t b0 hb
        unfold mark_delivered
        rw [hb]
      rw [hmk _ _ hq2, hmk _ _ hq]
      simp only [List.set_set, insertKey_idem]
  · have hmem : alert_key a ∈ (applyOps s ops).delivered_keys :=
      applyOps_delivered_mono ops s hk
    exact enqueue_alert_of_mem hmem

/-- Witness for C2 at a concrete state whose key set already holds the
alert's key, with a run containing a delivery, a GC pass and a re-enqueue
attempt. -/
theorem markDelivered_idem_dedupPersists_witness :
    alert_key (weather_alert_mk 3 "Dallas" "storm" 0)
      ∈ { initState "driver" "d" with
          delivered_keys := [alert_key (weather_alert_mk 3 "Dallas" "storm" 0)]
          alert_queue := [weather_alert_mk 3 "Dallas" "storm" 0] }.delivered_keys
    ∧ mark_delivered
        (mark_delivered
          { initState "driver" "d" with
            delivered_keys := [alert_key (weather_alert_mk 3 "Dallas" "storm" 0)]
            alert_queue := [weather_alert_mk 3 "Dallas" "storm" 0] } 0) 0
      = mark_delivered
          { initState "driver" "d" with
            delivered_keys := [alert_key (weather_alert_mk 3 "Dallas" "storm" 0)]
            alert_queue := [weather_alert_mk 3 "Dallas" "storm" 0] } 0
    ∧ enqueue_alert
        (applyOps
          { initState "driver" "d" with
            delivered_keys := [alert_key (weather_alert_mk 3 "Dallas" "storm" 0)]
            alert_queue := [weather_alert_mk 3 "Dallas" "storm" 0] }
          [.mark 0, .gc 24 100000])
        (weather_alert_mk 3 "Dallas" "storm" 0)
      = applyOps
          { initState "driver" "d" with
            delivered_keys := [alert_key (weather_alert_mk 3 "Dallas" "storm" 0)]
            alert_queue := [weather_alert_mk 3 "Dallas" "storm" 0] }
          [.mark 0, .gc 24 100000] := by
  have h := markDelivered_idem_dedupPersists
    { initState "driver" "d" with
      delivered_keys := [alert_key (weather_alert_mk 3 "Dallas" "storm" 0)]
      alert_queue := [weather_alert_mk 3 "Dallas" "storm" 0] }
    0 (weather_alert_mk 3 "Dallas" "storm" 0) [.mark 0, .gc 24 100000]
    (by decide)
  exact ⟨by decide, h.1, h.2⟩

-- ─── C10 ────────────────────────────────────────────────────────────────────

/-- C10: `get_pending_alerts` is read-only. The state after the call equals
the state before it in every component — the queue keeps the same elements
in the same insertion order with unchanged delivered flags, and all dedup
and snapshot collections are untouched — while the returned list is the
freshly built, stably sorted copy of the undelivered alerts. -/
theorem getPendingAlerts_readOnly (s : MonitorState) :
    (get_pending_alerts_run s).2.alert_queue = s.alert_queue
    ∧ (∀ i : Nat,
        ((get_pending_alerts_run s).2.alert_queue[i]?).map (·.delivered)
          = (s.alert_queue[i]?).map (·.delivered))
    ∧ (get_pending_alerts_run s).2.delivered_keys = s.delivered_keys
    ∧ (get_pending_alerts_run s).2.warned_permits = s.warned_permits
    ∧ (get_pending_alerts_run s).2.warned_deadlines = s.warned_deadlines
    ∧ (get_pending_alerts_run s).2.last_order_statuses = s.last_order_statuses
    ∧ (get_pending_alerts_run s).2.last_order_ids = s.last_order_ids
    ∧ (get_pending_alerts_run s).1
        = pendSort (s.alert_queue.filter (fun a => !a.delivered)) :=
  ⟨rfl, fun _ => rfl, rfl, rfl, rfl, rfl, rfl, rfl⟩

-- ─── Character classes (Python regex \w, \s, \d on ASCII queries) ───────────

def isWordC (c : Char) : Bool := c.isAlphanum || c == '_'

def isSpaceC (c : Char) : Bool :=
  c == ' ' || c == '\t' || c == '\n' || c == '\r' || c == '\x0b' || c == '\x0c'

/-- Maximal digit run at the head: `(digits, rest)`. -/
def takeDigits : List Char → List Char × List Char
  | [] => ([], [])
  | c :: t =>
    if c.isDigit then
      let (d, r) := takeDigits t
      (c :: d, r)
    else ([], c :: t)

/-- Maximal whitespace run at the head: `(spaces, rest)`. -/
def takeSpaces : List Char → List Char × List Char
  | [] => ([], [])
  | c :: t =>
    if isSpaceC c then
      let (w, r) := takeSpaces t
      (c :: w, r)
    else ([], c :: t)

/-- `int` of a digit string. -/
def digitsToNat (d : List Char) : Nat :=
  d.foldl (fun n c => n * 10 + (c.toNat - '0'.toNat)) 0

/-- Match a literal; returns the remaining input on success. -/
def matchLit : List Char → List Char → Option (List Char)
  | [], rest => some rest
  | _ :: _, [] => none
  | a :: as, b :: bs => if a == b then matchLit as bs else none

/-- `\s+` (greedy; the following regex atoms never match whitespace). -/
def matchSpaces1 : List Char → Option (List Char)
  | [] => none
  | c :: t => if isSpaceC c then some (takeSpaces t).2 else none

/-- `#?` (deterministic: the following atom is a digit). -/
def matchOptHash : List Char → List Char
  | [] => []
  | c :: t => if c == '#' then t else c :: t

/-- `(\d{4,})` greedy, capturing the digits. -/
def matchD4 (l : List Char) : Option (List Char) :=
  let d := (takeDigits l).1
  if d.length ≥ 4 then some d else none

/-- `re.search`: try the matcher at each position, leftmost first. -/
def searchM {α : Type} (m : List Char → Option α) : List Char → Option α
  | [] => m []
  | c :: t =>
    match m (c :: t) with
    | some r => some r
    | none => searchM m t

/-- `order\s+#?(\d{4,})` at one position. -/
def pat1 (l : List Char) : Option (List Char) :=
  match matchLit "order".toList l with
  | none => none
  | some r1 =>
    match matchSpaces1 r1 with
    | none => none
    | some r2 => matchD4 (matchOptHash r2)

/-- `#(\d{4,})` at one position. -/
def pat2 : List Char → Option (List Char)
  | [] => none
  | c :: t => if c == '#' then matchD4 t else none

/-- `(?:about|for|id)\s+#?(\d{4,})` at one position (the alternatives start
with distinct characters, so no backtracking between them is possible). -/
def pat4 (l : List Char) : Option (List Char) :=
  match matchLit "about".toList l with
  | some r1 =>
    (match matchSpaces1 r1 with
     | none => none
     | some r2 => matchD4 (matchOptHash r2))
  | none =>
    match matchLit "for".toList l with
    | some r1 =>
      (match matchSpaces1 r1 with
       | none => none
       | some r2 => matchD4 (matchOptHash r2))
    | none =>
      match matchLit "id".toList l with
      | some r1 =>
        (match matchSpaces1 r1 with
         | none => none
         | some r2 => matchD4 (matchOptHash r2))
      | none => none

/-- `re.findall(r"\b\d+\b", …)`: the maximal digit runs whose neighbours
are non-word characters or the ends of the string, left to right.
Arguments: previous character (for the left boundary), the digit run read
so far (reversed), the remaining input. -/
def numTokensAux : Option Char → List Char → List Char → List (List Char)
  | _, run, [] => if run.isEmpty then [] else [run.reverse]
  | prev, run, c :: t =>
    if c.isDigit then
      if run.isEmpty then
        if (match prev with | some p => !isWordC p | none => true) then
          numTokensAux (some c) [c] t
        else numTokensAux (some c) [] t
      else numTokensAux (some c) (c :: run) t
    else
      if !run.isEmpty && !isWordC c then
        run.reverse :: numTokensAux (some c) [] t
      else numTokensAux (some c) [] t

def numTokens (l : List Char) : List (List Char) := numTokensAux none [] l

/-- `(?:st|nd|rd|th)` (distinct first characters, no backtracking). -/
def ordinalSuffix (l : List Char) : Option (List Char × List Char) :=
  match matchLit ['s', 't'] l with
  | some r => some (['s', 't'], r)
  | none =>
    match matchLit ['n', 'd'] l with
    | some r => some (['n', 'd'], r)
    | none =>
      match matchLit ['r', 'd'] l with
      | some r => some (['r', 'd'], r)
      | none =>
        match matchLit ['t', 'h'] l with
        | some r => some (['t', 'h'], r)
        | none => none

/-- `(\d+)(?:st|nd|rd|th)\s+latest` at one position; returns
`(group 1, group 0)` — the digits and the whole matched text. -/
def patOrdinal (l : List Char) : Option (List Char × List Char) :=
  let dr := takeDigits l
  if dr.1.isEmpty then none
  else
    match ordinalSuffix dr.2 with
    | none => none
    | some sufr =>
      let wsr := takeSpaces sufr.2
      if wsr.1.isEmpty then none
      else
        match matchLit "latest".toList wsr.2 with
        | some _ => some (dr.1, dr.1 ++ sufr.1 ++ wsr.1 ++ "latest".toList)
        | none => none

-- ─── Position tables (config/constants.py, in source insertion order) ───────

def POSITION_MAPPINGS : List (String × Nat) :=
  [("third last", 2), ("third latest", 2),
   ("second last", 1), ("second latest", 1),
   ("fourth last", 3), ("fourth latest", 3),
   ("fifth last", 4), ("fifth latest", 4),
   ("sixth last", 5), ("sixth latest", 5),
   ("seventh last", 6), ("seventh latest", 6),
   ("eighth last", 7), ("eighth latest", 7),
   ("ninth last", 8), ("ninth latest", 8),
   ("tenth last", 9), ("tenth latest", 9),
   ("latest", 0), ("last", 0), ("newest", 0),
   ("second", 1), ("third", 2), ("fourth", 3),
   ("fifth", 4), ("sixth", 5), ("seventh", 6),
   ("eighth", 7), ("ninth", 8), ("tenth", 9)]

def POSITION_DESCRIPTIONS : List (Nat × String) :=
  [(0, "latest"), (1, "second latest"), (2, "third latest"),
   (3, "fourth latest"), (4, "fifth latest"), (5, "sixth latest"),
   (6, "seventh latest"), (7, "eighth latest"), (8, "ninth latest"),
   (9, "tenth latest")]

/-- `POSITION_DESCRIPTIONS.get(i, f"{i + 1}th latest")`. -/
def posDesc (i : Nat) : String :=
  ((POSITION_DESCRIPTIONS.find? (fun kv => kv.1 == i)).map (·.2)).getD
    (toString (i + 1) ++ "th latest")

-- ─── get_admin_order_id (services/order_service.py) ─────────────────────────

/-- Validate one pattern's search result against the order store: the
extracted number is returned only if an order with that ID exists. -/
def try_pattern (db : DB) (r : Option (List Char)) : Option Int :=
  match r with
  | none => none
  | some d =>
    let oid : Int := (digitsToNat d : Nat)
    if (db_find_order db oid).isSome then some oid else none

/-- `get_admin_order_id`: try the four patterns on the lower-cased query in
source order; the first pattern whose (single) search hit names an existing
order wins. -/
def get_admin_order_id (db : DB) (query : String) : Option Int :=
  let q := (strToLower query).toList
  match try_pattern db (searchM pat1 q) with
  | some oid => some oid
  | none =>
    match try_pattern db (searchM pat2 q) with
    | some oid => some oid
    | none =>
      match try_pattern db
          ((numTokens q).find? (fun d => decide (d.length ≥ 4))) with
      | some oid => some oid
      | none => try_pattern db (searchM pat4 q)

-- ─── resolve_order_context (services/order_service.py) ──────────────────────

/-- `user_data["driver_info"]`, with the `order_ids` key possibly absent. -/
structure DriverInfo where
  order_ids : Option (List Int)
deriving Repr

structure ClientInfo where
  order_ids : Option (List Int)
deriving Repr

/-- `user_data`: which of `admin_info` / `driver_info` / `client_info` keys
are present, and their payloads. -/
structure UserData where
  admin_info : Bool
  driver_info : Option DriverInfo
  client_info : Option ClientInfo
deriving Repr

/-- A Python exception raised inside the resolution body. -/
inductive PyErr where
  | keyError (k : String)
deriving DecidableEq, Repr

/-- Python list indexing under a validated `index < len` bound: negative
indices address from the end. -/
def pyGet (l : List Int) (i : Int) : Int :=
  if i ≥ 0 then l.getD i.toNat 0
  else l.getD (l.length - (-i).toNat) 0

/-- `list.index`: position of the first occurrence. -/
def idxOfInt : List Int → Int → Nat
  | [], _ => 0
  | y :: t, x => if y == x then 0 else idxOfInt t x + 1

/-- The driver/client arm of the resolver: position phrases, then ordinal
phrasing, then bare order-ID mentions, then the current order, then the
newest order. -/
def driver_client_resolve (query : String) (current_order_id : Option Int)
    (order_ids : List Int) (user_type : String) :
    Bool × List Int × String :=
  let ql := (strToLower query).toList
  match POSITION_MAPPINGS.find? (fun pm => isInfixL pm.1.toList ql) with
  | some pm =>
    if pm.2 < order_ids.length then
      let oid := order_ids.getD pm.2 0
      (true, [oid], "Using " ++ posDesc pm.2 ++ " order (" ++ toString oid
        ++ ") for " ++ user_type)
    else
      (false, [], "No " ++ pm.1 ++ " order available for " ++ user_type)
  | none =>
    match searchM patOrdinal ql with
    | some dm =>
      let index : Int := (digitsToNat dm.1 : Nat) - 1
      if index < (order_ids.length : Int) then
        let oid := pyGet order_ids index
        (true, [oid], "Using " ++ String.mk dm.2 ++ " order ("
          ++ toString oid ++ ") for " ++ user_type)
      else
        (false, [], "No " ++ String.mk dm.2 ++ " order available for "
          ++ user_type)
    | none =>
      match (numTokens query.toList).findSome?
          (fun d =>
            let oid : Int := (digitsToNat d : Nat)
            if oid ∈ order_ids then some oid else none) with
      | some oid =>
        (true, [oid], "Using order " ++ toString oid ++ " ("
          ++ posDesc (idxOfInt order_ids oid) ++ " order) for " ++ user_type)
      | none =>
        match current_order_id with
        | some c =>
          (false, [c], "Continuing with current order " ++ toString c
            ++ " for " ++ user_type)
        | none =>
          match order_ids with
          | o :: _ =>
            (true, [o], "Using latest order " ++ toString o ++ " for "
              ++ user_type)
          | [] => (false, [], "No orders found for " ++ user_type)

/-- The `try`-block body of `resolve_order_context`; a missing `order_ids`
key raises `KeyError`, surfaced in the `Except` error channel. -/
def resolve_body (db : DB) (query : String) (current_order_id : Option Int)
    (user_data : UserData) : Except PyErr (Bool × List Int × String) :=
  if user_data.admin_info then
    match get_admin_order_id db query with
    | some oid =>
      .ok (true, [oid], "Accessing order " ++ toString oid ++ " as admin")
    | none =>
      match current_order_id with
      | some c =>
        .ok (false, [c], "Continuing with current order " ++ toString c)
      | none => .ok (false, [], "Please specify an order ID")
  else
    match user_data.driver_info with
    | some di =>
      (match di.order_ids with
       | none => .error (.keyError "order_ids")
       | some ids =>
         .ok (driver_client_resolve query current_order_id
           (sortDescInt ids) "driver"))
    | none =>
      match user_data.client_info with
      | some ci =>
        (match ci.order_ids with
         | none => .error (.keyError "order_ids")
         | some ids =>
           .ok (driver_client_resolve query current_order_id
             (sortDescInt ids) "client"))
      | none => .ok (false, [], "Invalid user data")

/-- `resolve_order_context`: the body under the catch-all `except`, which
converts any exception into `(False, [], "Error in processing")`. -/
def resolve_order_context (db : DB) (query : String)
    (current_order_id : Option Int) (user_data : UserData) :
    Bool × List Int × String :=
  match resolve_body db query current_order_id user_data with
  | .ok r => r
  | .error _ => (false, [], "Error in processing")

-- ─── C7 ─────────────────────────────────────────────────────────────────────

/-- C7: with the user order list `[500, 450, 400, 350]` (descending),
"show me the third last order" resolves to `(true, [400], …)` — index 2 of
the descending list — and "show me the tenth last order" resolves to
`(false, [], …)` explaining unavailability, regardless of whether a current
order ID is set (for both driver and client roles): the current order is
not used as a fallback in the out-of-bounds branch. -/
theorem positionResolution_thirdAndTenthLast (db : DB) (cur : Option Int) :
    resolve_order_context db "show me the third last order" cur
        { admin_info := false
          driver_info := some { order_ids := some [500, 450, 400, 350] }
          client_info := none }
      = (true, [400], "Using third latest order (400) for driver")
    ∧ resolve_order_context db "show me the tenth last order" cur
        { admin_info := false
          driver_info := some { order_ids := some [500, 450, 400, 350] }
          client_info := none }
      = (false, [], "No tenth last order available for driver")
    ∧ resolve_order_context db "show me the third last order" cur
        { admin_info := false
          driver_info := none
          client_info := some { order_ids := some [500, 450, 400, 350] } }
      = (true, [400], "Using third latest order (400) for client")
    ∧ resolve_order_context db "show me the tenth last order" cur
        { admin_info := false
          driver_info := none
          client_info := some { order_ids := some [500, 450, 400, 350] } }
      = (false, [], "No tenth last order available for client") := by
  refine ⟨rfl, rfl, rfl, rfl⟩

-- ─── C8 ─────────────────────────────────────────────────────────────────────

/-- C8: `resolve_order_context` never raises — it is a total function of
its inputs — and on every input whose resolution body raises an exception,
the exception is caught and converted to exactly
`(false, [], "Error in processing")`. -/
theorem resolveOrderContext_catchesAll (db : DB) (query : String)
    (cur : Option Int) (ud : UserData) (e : PyErr)
    (herr : resolve_body db query cur ud = .error e) :
    resolve_order_context db query cur ud
      = (false, [], "Error in processing") := by
  unfold resolve_order_context
  rw [herr]

/-- Witness for C8: a driver document whose `order_ids` key is missing
raises `KeyError`, and the resolver returns the error triple. -/
theorem resolveOrderContext_catchesAll_witness :
    resolve_body (DB.mk [] [] []) "show my orders" none
        { admin_info := false
          driver_info := some { order_ids := none }
          client_info := none }
      = .error (.keyError "order_ids")
    ∧ resolve_order_context (DB.mk [] [] []) "show my orders" none
        { admin_info := false
          driver_info := some { order_ids := none }
          client_info := none }
      = (false, [], "Error in processing") :=
  ⟨rfl,
   resolveOrderContext_catchesAll (DB.mk [] [] []) "show my orders" none
     { admin_info := false
       driver_info := some { order_ids := none }
       client_info := none }
     (.keyError "order_ids") rfl⟩
